import Mathlib

/-! # bespoke-ed: verification of the document tree, zipper and render pipeline

Shallow embedding of src/primatives.rs, src/zipper.rs, src/control.rs and
src/input.rs.  Rust `usize`/`u16` values are modelled as `Nat` (the spots
where wrapping or panicking subtraction matters are noted at the definition
that models them); `Arc<RwLock<_>>`-shared nodes are modelled by value;
operations that can panic return `Option`, fallible ones return `Except`.
Strings are modelled as lists of scalar characters. -/

/-- Rust scalar `char`. -/
abbrev Codepoint := Char

namespace BespokeEd

/-- ratatui `Rect` (`u16` fields modelled as `Nat`). -/
structure Rect where
  x : Nat
  y : Nat
  width : Nat
  height : Nat
  deriving DecidableEq

/-- The two ratatui colors the editor writes (highlight uses white/black). -/
inductive Color where
  | white
  | black
  deriving DecidableEq

/-- ratatui `Style`, restricted to the fields the editor touches. -/
structure Style where
  fg : Option Color := none
  bg : Option Color := none
  deriving DecidableEq

def Style.default : Style := {}

/-- ratatui `Alignment`. -/
inductive Alignment where
  | left
  | center
  | right
  deriving DecidableEq

/-- `SplitDirection` (src/primatives.rs, lines 43-48). -/
inductive SplitDirection where
  | vertical
  | horizontal
  deriving DecidableEq

/-- `Char` (src/primatives.rs, lines 19-23): one styled code point. -/
structure Char where
  char : Codepoint
  style : Style
  deriving DecidableEq

/-- `Span` (src/primatives.rs, lines 25-28). -/
structure Span where
  characters : List Char
  deriving DecidableEq

/-- `Line` (src/primatives.rs, lines 30-33). -/
structure Line where
  spans : List Span
  deriving DecidableEq

/-- `Text` (src/primatives.rs, lines 35-41). -/
structure Text where
  scroll_offset : Nat
  height : Nat
  lines : List Line
  alignment : Option Alignment
  deriving DecidableEq

/-- `Window` (src/primatives.rs, lines 78-83): children are
`Either<ARW<Window>, ARW<Text>>`. -/
inductive Window where
  | mk (area : Rect) (split_dir : SplitDirection) (children : List (Window ⊕ Text))

def Window.area : Window → Rect
  | .mk a _ _ => a

def Window.split_dir : Window → SplitDirection
  | .mk _ s _ => s

def Window.children : Window → List (Window ⊕ Text)
  | .mk _ _ c => c

/-- `Window::new` (src/primatives.rs, lines 86-92). -/
def Window.new (split_dir : SplitDirection) (area : Rect) : Window :=
  .mk area split_dir []

/-- `Root` (src/primatives.rs, lines 50-55). -/
structure Root where
  area : Rect
  split_dir : SplitDirection
  children : List Window

/-- `Root::new` (src/primatives.rs, lines 58-64). -/
def Root.new (split_dir : SplitDirection) (area : Rect) : Root :=
  { area := area, split_dir := split_dir, children := [] }

/-- `Root::add_window` (src/primatives.rs, lines 66-76).  When
`index >= len` a window is first pushed; the subsequent
`children.drain(index..)` panics (modelled `none`) when `index` still
exceeds the new length, and otherwise the drained tail is re-appended after
pushing a second new window. -/
def Root.add_window (r : Root) (split_dir : SplitDirection) (index : Nat) :
    Option Root :=
  let children0 :=
    if r.children.length ≤ index then
      r.children ++ [Window.new split_dir r.area]
    else
      r.children
  if children0.length < index then
    none
  else
    let tmp := children0.drop index
    let kept := children0.take index
    some { r with children := kept ++ [Window.new split_dir r.area] ++ tmp }

/-- `Window::add_window` (src/primatives.rs, lines 94-103): same shape as
`Root::add_window`, inserting `Left`-tagged windows. -/
def Window.add_window (w : Window) (split_dir : SplitDirection) (index : Nat) :
    Option Window :=
  let children0 :=
    if w.children.length ≤ index then
      w.children ++ [Sum.inl (Window.new split_dir w.area)]
    else
      w.children
  if children0.length < index then
    none
  else
    let tmp := children0.drop index
    let kept := children0.take index
    some (Window.mk w.area w.split_dir
      (kept ++ [Sum.inl (Window.new split_dir w.area)] ++ tmp))

/-- Rust `str::split_inclusive` with a one-character pattern: every piece
ends with the delimiter except possibly the last, the pieces concatenate
back to the input, and the empty string yields no pieces. -/
def splitInclusive (delim : Codepoint) : List Codepoint → List (List Codepoint)
  | [] => []
  | c :: cs =>
    if c = delim then
      [c] :: splitInclusive delim cs
    else
      match splitInclusive delim cs with
      | [] => [[c]]
      | piece :: rest => (c :: piece) :: rest

/-- `Span::raw` (src/primatives.rs, lines 121-131): one default-styled
`Char` per input character. -/
def Span.raw (content : List Codepoint) : Span :=
  ⟨content.map fun ch => { char := ch, style := Style.default }⟩

/-- `Line::raw` (src/primatives.rs, lines 177-186): inclusive split at
spaces, one `Span` per piece. -/
def Line.raw (input : List Codepoint) : Line :=
  ⟨(splitInclusive ' ' input).map Span.raw⟩

/-- `Text::raw` (src/primatives.rs, lines 145-153): inclusive split at
newlines, one `Line` per piece; the remaining fields take their `Default`
values. -/
def Text.raw (input : List Codepoint) : Text :=
  { scroll_offset := 0
    height := 0
    lines := (splitInclusive '\n' input).map Line.raw
    alignment := none }

/-- `Text::add_line` (src/primatives.rs, lines 155-166).  The method drains
the tail `lines[min(index,len)..len]`, pushes the new line onto the kept
prefix, appends the drained tail back — `Vec::append` moves the elements
out, leaving the drained vector empty — and then its last statement
`self.lines = lines;` installs that emptied vector. -/
def Text.add_line (t : Text) (line : Line) (index : Nat) : Text :=
  let len := t.lines.length
  let drained := t.lines.drop (min index len)
  let _pushed := t.lines.take (min index len) ++ [line] ++ drained
  let drainedAfterAppend : List Line := []
  { t with lines := drainedAfterAppend }

/-- `Line::add_span` (src/primatives.rs, lines 187-198): same shape — and
same trailing reassignment of the emptied vector — as `Text::add_line`. -/
def Line.add_span (l : Line) (span : Span) (index : Nat) : Line :=
  let len := l.spans.length
  let drained := l.spans.drop (min index len)
  let _pushed := l.spans.take (min index len) ++ [span] ++ drained
  let drainedAfterAppend : List Span := []
  { l with spans := drainedAfterAppend }

/-- `Text::get_line` (src/primatives.rs, lines 168-173).  `unwrap_or`'s
argument `self.lines.get(self.lines.len() - 1).unwrap()` is evaluated
eagerly; on a zero-line text it panics (`len() - 1` underflows in debug
builds, and the `unwrap` of `None` aborts in release builds), modelled by
`none`. -/
def Text.get_line (t : Text) (index : Nat) : Option Line :=
  match t.lines.get? (t.lines.length - 1) with
  | none => none
  | some fallback => some ((t.lines.get? index).getD fallback)

/-- The characters of a span in order (the observation the round-trip claim
is about). -/
def Span.content (s : Span) : List Codepoint :=
  s.characters.map Char.char

/-- The characters of a line in document order. -/
def Line.content (l : Line) : List Codepoint :=
  (l.spans.map Span.content).flatten

/-- The characters of a text in document order. -/
def Text.content (t : Text) : List Codepoint :=
  (t.lines.map Line.content).flatten

/-- `LineNumber` (src/primatives.rs, lines 398-411): the 1-based line number
and its decimal rendering (`usize::to_string`), computed once at
construction. -/
structure LineNumber where
  num : Nat
  str : List Codepoint
  deriving DecidableEq

/-- `LineNumber::new` (src/primatives.rs, lines 404-411). -/
def LineNumber.new (number : Nat) : LineNumber :=
  { num := number, str := Nat.toDigits 10 number }

/-- `SpanRender` (src/primatives.rs, lines 375-379). -/
structure SpanRender where
  characters : List Char
  alignment : Option Alignment
  deriving DecidableEq

/-- `LineRender` (src/primatives.rs, lines 381-385). -/
structure LineRender where
  spans : List SpanRender
  alignment : Option Alignment
  deriving DecidableEq

/-- `TextRender` (src/primatives.rs, lines 387-391). -/
structure TextRender where
  lines : List (LineNumber × LineRender)
  alignment : Option Alignment
  deriving DecidableEq

/-- `<ARW<Span> as AsyncWidget>::async_render` (src/primatives.rs, lines
232-248): each character is cloned by its own task; the results are sorted
back into index order, so the outcome is the ordered character list. -/
def Span.async_render (s : Span) : SpanRender :=
  { characters := s.characters, alignment := none }

/-- `<ARW<Line> as AsyncWidget>::async_render` (src/primatives.rs, lines
262-278): per-span fan-out, reassembled in index order. -/
def Line.async_render (l : Line) : LineRender :=
  { spans := l.spans.map Span.async_render, alignment := none }

/-- `<ARW<Text> as AsyncWidget>::async_render` (src/primatives.rs, lines
292-318): lines are filtered to the indices with
`i >= scroll_offset && i < scroll_offset + height - 1` (`usize`
subtraction; the model's `Nat` truncation agrees with the source whenever
`scroll_offset + height ≥ 1`), each kept line is tagged
`LineNumber::new(i + 1)`, and the per-line tasks are reassembled sorted by
line number, i.e. in index order. -/
def Text.async_render (t : Text) : TextRender :=
  { lines :=
      (t.lines.enum.filter fun p =>
          decide (t.scroll_offset ≤ p.1) &&
            decide (p.1 < t.scroll_offset + t.height - 1)).map
        fun p => (LineNumber.new (p.1 + 1), p.2.async_render)
    alignment := t.alignment }

/-- `WindowRender` (src/primatives.rs, lines 393-396). -/
inductive WindowRender where
  | mk (split_dir : SplitDirection) (children : List (WindowRender ⊕ TextRender))

def WindowRender.split_dir : WindowRender → SplitDirection
  | .mk s _ => s

def WindowRender.children : WindowRender → List (WindowRender ⊕ TextRender)
  | .mk _ c => c

/-- The `Rect` that `<WindowRender as WidgetRef>::render_ref`
(src/primatives.rs, lines 500-533) passes to child `i`: with `n` children,
`offset = extent / n` along the split axis; child 0 keeps the area origin
and every later child is placed at `origin + offset + 1`; with zero
children the method returns before drawing anything. -/
def WindowRender.childAreas (w : WindowRender) (area : Rect) : List Rect :=
  let n := w.children.length
  if n = 0 then
    []
  else
    match w.split_dir with
    | .horizontal =>
      let offset := area.height / n
      (List.range n).map fun i =>
        { x := area.x
          y := if i = 0 then area.y else area.y + offset + 1
          width := area.width
          height := offset }
    | .vertical =>
      let offset := area.width / n
      (List.range n).map fun i =>
        { x := if i = 0 then area.x else area.x + offset + 1
          y := area.y
          width := offset
          height := area.height }

mutual

/-- Modelled from the spec: `primatives::Layout` is imported by
src/zipper.rs but is not under src/.  Per the spec's data model (sections
3.2 and 4.2.3 and the design note on sum types), a layout node carries a
style (written by the highlight side-effect) and a `LayoutType`. -/
inductive Layout where
  | mk (style : Style) (layout : LayoutType)

/-- Modelled from the spec: `primatives::LayoutType` is imported by
src/zipper.rs but is not under src/.  A layout is either a Content leaf
holding a `Text` or a Container holding a split direction and child
layouts. -/
inductive LayoutType where
  | content (text : Text)
  | container (split_direction : SplitDirection) (layouts : List Layout)

end

def Layout.style : Layout → Style
  | .mk s _ => s

def Layout.layout : Layout → LayoutType
  | .mk _ l => l

/-- `Node` (src/zipper.rs, lines 73-79). -/
inductive Node where
  | layout (l : Layout)
  | line (l : Line)
  | span (s : Span)
  | char (c : Char)

instance : Inhabited Node :=
  ⟨.char { char := ' ', style := Style.default }⟩

/-- `Node::get_children` (src/zipper.rs, lines 109-141): `none` for a
`Char`, the (possibly empty) child list wrapped per level otherwise. -/
def Node.get_children : Node → Option (List Node)
  | .layout l =>
    some
      (match l.layout with
        | .content text => text.lines.map Node.line
        | .container _ layouts => layouts.map Node.layout)
  | .span s => some (s.characters.map Node.char)
  | .line l => some (l.spans.map Node.span)
  | .char _ => none

/-- Modelled from the spec: `Line::add_child` (the `Mother` impl used by
`Node::try_add_child`) is not under src/.  Spec section 4.1: the child is
inserted at `min(index, len)`, shifting later siblings right. -/
def Line.add_child (l : Line) (child : Span) (index : Nat) : Line :=
  ⟨l.spans.take (min index l.spans.length) ++ [child] ++
    l.spans.drop (min index l.spans.length)⟩

/-- Modelled from the spec: `Span::add_child` (the `Mother` impl used by
`Node::try_add_child`) is not under src/.  Spec section 4.1: the child is
inserted at `min(index, len)`. -/
def Span.add_child (s : Span) (child : Char) (index : Nat) : Span :=
  ⟨s.characters.take (min index s.characters.length) ++ [child] ++
    s.characters.drop (min index s.characters.length)⟩

/-- Modelled from the spec: `Layout::try_add_child` for a `Layout` child
(the `TryMother` impl used by `Node::try_add_child`) is not under src/.
Spec section 3.4: only a Container (Window) hosts layout children; a
Content (Text) parent is a structural mismatch. -/
def Layout.try_add_child_layout (mom : Layout) (child : Layout) (index : Nat) :
    Option Layout :=
  match mom.layout with
  | .container dir layouts =>
    some (.mk mom.style (.container dir
      (layouts.take (min index layouts.length) ++ [child] ++
        layouts.drop (min index layouts.length))))
  | .content _ => none

/-- Modelled from the spec: `Layout::try_add_child` for a `Line` child is
not under src/.  Spec section 3.4: only a Content (Text) hosts lines; a
Container parent is a structural mismatch. -/
def Layout.try_add_child_line (mom : Layout) (child : Line) (index : Nat) :
    Option Layout :=
  match mom.layout with
  | .content text =>
    let lines2 :=
      text.lines.take (min index text.lines.length) ++ [child] ++
        text.lines.drop (min index text.lines.length)
    some (.mk mom.style (.content { text with lines := lines2 }))
  | .container _ _ => none

/-- `Node::try_add_child` (src/zipper.rs, lines 90-107).  The Rust mutates
the shared parent in place and returns a reference to the inserted child,
which its only caller discards; the model returns the updated parent
instead.  The wildcard arm is the `anyhow!` structural-mismatch error, and
the two `Layout` arms propagate the error of `Layout::try_add_child`. -/
def Node.try_add_child (mom : Node) (child : Node) (index : Nat) :
    Except Unit Node :=
  match mom, child with
  | .layout m, .layout c =>
    match m.try_add_child_layout c index with
    | some m2 => .ok (.layout m2)
    | none => .error ()
  | .layout m, .line c =>
    match m.try_add_child_line c index with
    | some m2 => .ok (.layout m2)
    | none => .error ()
  | .line m, .span c => .ok (.line (m.add_child c index))
  | .span m, .char c => .ok (.span (m.add_child c index))
  | _, _ => .error ()

/-- `PrevDir` (src/zipper.rs, lines 55-60). -/
inductive PrevDir where
  | parent
  | left
  | right
  deriving DecidableEq

/-- `LayoutZipper` (src/zipper.rs, lines 178-185); the boxed `Breadcrumb`
is inlined as a zipper/direction pair.  `left` holds the lower-index
siblings in order; `right` is the `VecDeque` of higher-index siblings with
the nearest sibling at the front. -/
inductive LayoutZipper where
  | mk (previous : Option (LayoutZipper × PrevDir)) (focus : Node)
      (children : List Node) (left : List Node) (right : List Node)

def LayoutZipper.previous : LayoutZipper → Option (LayoutZipper × PrevDir)
  | .mk p _ _ _ _ => p

def LayoutZipper.focus : LayoutZipper → Node
  | .mk _ f _ _ _ => f

def LayoutZipper.children : LayoutZipper → List Node
  | .mk _ _ c _ _ => c

def LayoutZipper.left : LayoutZipper → List Node
  | .mk _ _ _ l _ => l

def LayoutZipper.right : LayoutZipper → List Node
  | .mk _ _ _ _ r => r

/-- `MoveResult` (src/zipper.rs, lines 33-37). -/
inductive MoveResult where
  | moved (z : LayoutZipper)
  | didntMove (z : LayoutZipper)

/-- `MoveResult::unwrap` (src/zipper.rs, lines 40-45): total, returns the
contained zipper either way. -/
def MoveResult.unwrap : MoveResult → LayoutZipper
  | .moved z => z
  | .didntMove z => z

/-- `<LayoutZipper as Zipper>::daughter` (src/zipper.rs, lines 430-450):
clamp the index to the last child, split the sibling snapshot around it,
descend with a Parent breadcrumb holding the undisturbed parent zipper. -/
def LayoutZipper.daughter (z : LayoutZipper) (index : Nat) : MoveResult :=
  let len := z.children.length
  if len = 0 then
    .didntMove z
  else
    let idx := if len ≤ index then len - 1 else index
    let left := z.children.take idx
    let right := z.children.drop (idx + 1)
    let focus := z.children.getD idx default
    let children := focus.get_children.getD []
    .moved (.mk (some (z, .parent)) focus children left right)

/-- `<LayoutZipper as Zipper>::left_sister` (src/zipper.rs, lines 452-469).
When the breadcrumb says the previous zipper lies to the left, return it
(`move_to_prev`'s `no_highlight`/`highlight` futures are created but never
awaited, so they have no effect); otherwise pop the nearest left sibling or
report `DidntMove`. -/
def LayoutZipper.left_sister (z : LayoutZipper) : MoveResult :=
  match z.previous with
  | some (p, .left) => .moved p
  | _ =>
    match z.left.getLast? with
    | none => .didntMove z
    | some focus =>
      let left := z.left.dropLast
      let right := z.focus :: z.right
      let children := focus.get_children.getD []
      .moved (.mk (some (z, .right)) focus children left right)

/-- `<LayoutZipper as Zipper>::right_sister` (src/zipper.rs, lines
471-488): mirror image of `left_sister`. -/
def LayoutZipper.right_sister (z : LayoutZipper) : MoveResult :=
  match z.previous with
  | some (p, .right) => .moved p
  | _ =>
    match z.right with
    | [] => .didntMove z
    | focus :: rest =>
      let left := z.left ++ [z.focus]
      let children := focus.get_children.getD []
      .moved (.mk (some (z, .left)) focus children left rest)

/-- `LayoutZipper::try_move_left` (src/zipper.rs, lines 230-235).  The
`no_highlight()` and `highlight()` futures there are never awaited, so the
call reduces to `left_sister`. -/
def LayoutZipper.try_move_left (z : LayoutZipper) : MoveResult :=
  z.left_sister

/-- `LayoutZipper::try_move_right` (src/zipper.rs, lines 223-228); same
unawaited-future remark as `try_move_left`. -/
def LayoutZipper.try_move_right (z : LayoutZipper) : MoveResult :=
  z.right_sister

/-- `LayoutZipper::move_left_catch_ignore` (src/zipper.rs, lines 237-239).
The body is `self.try_move_right().await.unwrap()` — it delegates to
`try_move_right`. -/
def LayoutZipper.move_left_catch_ignore (z : LayoutZipper) : LayoutZipper :=
  z.try_move_right.unwrap

/-- `LayoutZipper::move_right_catch_ignore` (src/zipper.rs, lines 241-243). -/
def LayoutZipper.move_right_catch_ignore (z : LayoutZipper) : LayoutZipper :=
  z.try_move_right.unwrap

/-- `LayoutZipper::try_add_child` (src/zipper.rs, lines 199-207): the
result of `Node::try_add_child` is `.unwrap()`ed, so a structural mismatch
panics — modelled by `none`; on success the sibling snapshot is updated by
an order-preserving insert and `Ok(())` is returned. -/
def LayoutZipper.try_add_child (z : LayoutZipper) (child : Node) (index : Nat) :
    Option LayoutZipper :=
  match z.focus.try_add_child child index with
  | .error _ => none
  | .ok focus2 =>
    let len := z.children.length
    let tail := z.children.drop (min index len)
    let kept := z.children.take (min index len)
    some (.mk z.previous focus2 (kept ++ [child] ++ tail) z.left z.right)

/-- Modelled from the spec: the crate-root `State` enum used by
src/input.rs and src/control.rs is defined in a main module that is not
under src/; spec section 4.3 lists the mode states. -/
inductive State where
  | normal
  | insert
  | travel
  | shutDown
  deriving DecidableEq

/-- `Command` (src/input.rs, lines 49-67). -/
inductive Command where
  | insert (ch : Codepoint)
  | normalMode
  | insertMode
  | travelMode
  | toFirstChild
  | toParent
  | toLeftSibling
  | toRightSibling
  | reset
  | shutDown
  | prevChar
  | prevLine
  | nextLine
  | nextChar
  | toLastChild
  | toMiddleChild
  deriving DecidableEq

/-- One iteration of the control loop's `match` (src/control.rs, lines
14-38), projected onto the shared state it can write: the mode and the
document tree.  `Insert`, `Reset`, `PrevChar`, `PrevLine`, `NextLine`,
`NextChar`, `ToLastChild` and `ToMiddleChild` are literal no-op arms
(`()`), the four `To…` navigation arms rebind only the loop-local zipper
(whose `DynZipper`/`RootZipper` type is not under src/), and no arm writes
the tree. -/
def controlStep (state : State) (root : Root) (cmd : Command) : State × Root :=
  match cmd with
  | .insert _ => (state, root)
  | .normalMode => (State.normal, root)
  | .insertMode => (State.insert, root)
  | .travelMode => (State.travel, root)
  | .toFirstChild => (state, root)
  | .toParent => (state, root)
  | .toLeftSibling => (state, root)
  | .toRightSibling => (state, root)
  | .reset => (state, root)
  | .shutDown => (State.shutDown, root)
  | .prevChar => (state, root)
  | .prevLine => (state, root)
  | .nextLine => (state, root)
  | .nextChar => (state, root)
  | .toLastChild => (state, root)
  | .toMiddleChild => (state, root)

/-- crossterm `Event`, restricted to the variants src/input.rs
distinguishes; key events carry no payload here because the tree-effect
match sends them to the wildcard arm. -/
inductive Event where
  | key
  | mouse
  | paste
  | resize (columns rows : Nat)
  | focusGained
  | focusLost
  deriving DecidableEq

/-- The tree effect of one polled event in the input loop (src/input.rs,
lines 27-32): `Resize(columns, rows)` writes
`Root.area := Rect::new(0, 0, columns, rows)`; every other variant falls
through without touching the tree. -/
def inputHandleEvent (root : Root) (event : Event) : Root :=
  match event with
  | .focusLost => root
  | .focusGained => root
  | .resize columns rows => { root with area := ⟨0, 0, columns, rows⟩ }
  | _ => root

/-- The span characters of a focused node, used to observe which sibling a
navigation landed on. -/
def Node.spanChars : Node → List Codepoint
  | .span s => s.characters.map Char.char
  | _ => []

/-- The `Text` carried by a Content layout node, used to observe scroll
state through a zipper move. -/
def Node.contentText : Node → Option Text
  | .layout l =>
    match l.layout with
    | .content t => some t
    | .container _ _ => none
  | _ => none

/-- The S4 scenario tree: a root holding one window whose only child is the
text loaded from "ab\n". -/
def s4root : Root :=
  { area := ⟨0, 0, 40, 10⟩
    split_dir := .vertical
    children := [Window.mk ⟨0, 0, 40, 10⟩ .vertical
      [Sum.inr (Text.raw ['a', 'b', '\n'])]] }

/-- A two-line text whose viewport parameters are `scroll_offset = 0`,
`height = 2`. -/
def c3text : Text :=
  { scroll_offset := 0
    height := 2
    lines := [Line.raw ['a'], Line.raw ['b']]
    alignment := none }

/-- A zipper focused on span "b" with left sibling "a" and right sibling
"c". -/
def c4zipper : LayoutZipper :=
  .mk none (.span (Span.raw ['b']))
    ((Node.span (Span.raw ['b'])).get_children.getD [])
    [.span (Span.raw ['a'])] [.span (Span.raw ['c'])]

/-- A window snapshot with three text children under a horizontal split. -/
def c5render : WindowRender :=
  .mk .horizontal
    [Sum.inr { lines := [], alignment := none },
      Sum.inr { lines := [], alignment := none },
      Sum.inr { lines := [], alignment := none }]

/-- A 9-by-9 drawing area at the origin. -/
def c5area : Rect := ⟨0, 0, 9, 9⟩

/-- A two-line text scrolled to offset 5 with a one-line viewport, so line 0
lies far above the viewport. -/
def c6text : Text :=
  { scroll_offset := 5
    height := 1
    lines := [Line.raw ['x'], Line.raw ['y']]
    alignment := none }

/-- A zipper focused on the Content layout holding `c6text`, its children
snapshot taken from the node as `LayoutZipper::new` does. -/
def c6zipper : LayoutZipper :=
  .mk none (.layout (.mk Style.default (.content c6text)))
    ((Node.layout (.mk Style.default (.content c6text))).get_children.getD [])
    [] []

/-- A span node used as a parent that cannot host a line. -/
def c7span : Span := Span.raw ['h', 'i']

/-- A line node offered as a child to the span. -/
def c7line : Node := .line (Line.raw ['x'])

/-- A zipper focused on `c7span`. -/
def c7zipper : LayoutZipper :=
  .mk none (.span c7span) ((Node.span c7span).get_children.getD []) [] []

theorem splitInclusive_flatten (d : Codepoint) (l : List Codepoint) :
    (splitInclusive d l).flatten = l := by
  induction l with
  | nil => rfl
  | cons c cs ih =>
    by_cases h : c = d
    · simp only [splitInclusive, if_pos h, List.flatten_cons]
      simpa using ih
    · simp only [splitInclusive, if_neg h]
      cases hs : splitInclusive d cs with
      | nil =>
        have hcs : cs = [] := by
          have h2 := ih
          rw [hs] at h2
          exact h2.symm
        simp [hcs]
      | cons piece rest =>
        rw [hs] at ih
        simp only [List.flatten_cons] at ih ⊢
        simp [ih]

theorem span_raw_content (l : List Codepoint) : (Span.raw l).content = l := by
  simp only [Span.raw, Span.content, List.map_map]
  exact List.map_id l

theorem line_raw_content (l : List Codepoint) : (Line.raw l).content = l := by
  unfold Line.raw Line.content
  rw [List.map_map]
  have h : List.map (Span.content ∘ Span.raw) (splitInclusive ' ' l)
      = List.map id (splitInclusive ' ' l) :=
    List.map_congr_left fun piece _ => span_raw_content piece
  rw [h, List.map_id, splitInclusive_flatten]

/-- Helper for C3: mapping the successor of the index over an
index-filtered enumeration is the same as filtering the index range
directly. -/
theorem enum_filter_map_succ_fst (l : List Line) (q : Nat → Bool) :
    ((l.enum.filter fun p => q p.1).map fun p => p.1 + 1)
      = ((List.range l.length).filter q).map fun i => i + 1 := by
  have h2 : (fun p : Nat × Line => q p.1) = q ∘ Prod.fst := rfl
  rw [h2, ← List.enum_map_fst l, List.filter_map, List.map_map]
  rfl

/-- C1: evaluating `Text::add_line` at a failing input.  Inserting a line
at index 0 into the one-line text loaded from "a\n" leaves an EMPTY line
list — the method's trailing `self.lines = lines;` installs the vector
that `Vec::append` has just drained — instead of the two-line list
`[inserted, old]` that order-preserving insertion requires, so the
pre-existing line is lost. -/
theorem C1_add_line_discards_all_lines :
    ((Text.raw ['a', '\n']).add_line (Line.raw ['b']) 0).lines = []
      ∧ ([] : List Line) ≠ Line.raw ['b'] :: (Text.raw ['a', '\n']).lines :=
  ⟨rfl, nofun⟩

/-- C2: the control loop's `Insert` arm is a literal no-op.  For every
mode, tree and character, processing `Command::Insert(ch)` changes
neither; running the S4 command sequence (enter Insert mode, press X) on
the tree loaded from "ab\n" returns the tree unchanged, whose line 0
still reads "ab\n" — not "Xab" as the claim requires. -/
theorem C2_insert_command_is_noop :
    (∀ (state : State) (root : Root) (ch : Codepoint),
        controlStep state root (Command.insert ch) = (state, root))
      ∧ [Command.insertMode, Command.insert 'X'].foldl
            (fun p cmd => controlStep p.1 p.2 cmd) (State.normal, s4root)
          = (State.insert, s4root)
      ∧ (Text.raw ['a', 'b', '\n']).lines.map Line.content = [['a', 'b', '\n']] :=
  ⟨fun _ _ _ => rfl, rfl, rfl⟩

/-- C4: `move_left_catch_ignore` moves the focus to the RIGHT sibling.
From focus "b" with left sibling "a" and right sibling "c", it lands on
"c" (its body calls `try_move_right`), not on the next-lower-index sibling
"a" the claim names. -/
theorem C4_move_left_moves_right :
    c4zipper.move_left_catch_ignore.focus.spanChars = ['c']
      ∧ (['c'] : List Codepoint) ≠ ['a'] :=
  ⟨rfl, by decide⟩

/-- C7: for the impermissible pair (Span parent, Line child),
`Node::try_add_child` does return the structural-mismatch error and builds
nothing — but `LayoutZipper::try_add_child` `unwrap()`s that error and
panics (modelled `none`) instead of ignoring the failed mutation
locally. -/
theorem C7_mismatch_escalates_to_panic :
    Node.try_add_child (.span c7span) c7line 0 = .error ()
      ∧ c7zipper.try_add_child c7line 0 = none :=
  ⟨rfl, rfl⟩

/-- C8: on `Resize(columns, rows)` the input loop writes
`Root.area := Rect::new(0, 0, columns, rows)` and leaves both remaining
fields of the Root — `split_dir` and `children` — exactly as they were. -/
theorem C8_resize_writes_area_only (root : Root) (columns rows : Nat) :
    (inputHandleEvent root (.resize columns rows)).area
        = { x := 0, y := 0, width := columns, height := rows }
      ∧ (inputHandleEvent root (.resize columns rows)).split_dir = root.split_dir
      ∧ (inputHandleEvent root (.resize columns rows)).children = root.children :=
  ⟨rfl, rfl, rfl⟩

/-- C9: loader round-trip.  Concatenating, in document order, the
characters of every span of every line of `Text::raw s` yields exactly
`s`: the inclusive splits at newline and at space keep every delimiter, so
loading neither loses nor adds any character. -/
theorem C9_loader_roundtrip (s : List Codepoint) : (Text.raw s).content = s := by
  unfold Text.raw Text.content
  simp only [List.map_map]
  have h : List.map (Line.content ∘ Line.raw) (splitInclusive '\n' s)
      = List.map id (splitInclusive '\n' s) :=
    List.map_congr_left fun piece _ => line_raw_content piece
  rw [h, List.map_id, splitInclusive_flatten]

/-- C3 counterexample: with `scroll_offset = 0`, `height = 2` and two
lines, index 1 lies in the claimed viewport `[0, 0 + 2)`, yet the builder
snapshots only line 0 — its filter stops at
`scroll_offset + height - 1 = 1`. -/
theorem C3_counterexample :
    (c3text.async_render.lines.map fun p => p.1.num) = [1]
      ∧ c3text.scroll_offset ≤ 1
      ∧ 1 < c3text.scroll_offset + c3text.height
      ∧ 1 < c3text.lines.length :=
  ⟨rfl, by decide, by decide, by decide⟩

/-- C3 (amended): the render builder snapshots exactly the lines whose
index lies in the half-open interval
`[scroll_offset, scroll_offset + height - 1)` — one line SHORT of the
claimed `[scroll_offset, scroll_offset + height)` — and each snapshotted
line is tagged with its stringified 1-based line number.  The hypothesis
keeps the model's `Nat` subtraction aligned with the source's `usize`
subtraction. -/
theorem C3_viewport_is_one_short (t : Text)
    (hvp : 1 ≤ t.scroll_offset + t.height) :
    (t.async_render.lines.map fun p => p.1.num)
        = ((List.range t.lines.length).filter fun i =>
            decide (t.scroll_offset ≤ i) &&
              decide (i + 1 < t.scroll_offset + t.height)).map (fun i => i + 1)
      ∧ ∀ p ∈ t.async_render.lines, p.1.str = Nat.toDigits 10 p.1.num := by
  constructor
  · have h0 : (t.async_render.lines.map fun p => p.1.num)
        = ((t.lines.enum.filter fun p =>
            decide (t.scroll_offset ≤ p.1) &&
              decide (p.1 < t.scroll_offset + t.height - 1)).map fun p => p.1 + 1) := by
      simp only [Text.async_render, List.map_map]
      rfl
    rw [h0, enum_filter_map_succ_fst t.lines fun i =>
      decide (t.scroll_offset ≤ i) &&
        decide (i < t.scroll_offset + t.height - 1)]
    have hq : ∀ i ∈ List.range t.lines.length,
        (decide (t.scroll_offset ≤ i) &&
            decide (i < t.scroll_offset + t.height - 1))
          = (decide (t.scroll_offset ≤ i) &&
            decide (i + 1 < t.scroll_offset + t.height)) := by
      intro i _
      have hd : decide (i < t.scroll_offset + t.height - 1)
          = decide (i + 1 < t.scroll_offset + t.height) := by
        rw [decide_eq_decide]
        omega
      rw [hd]
    rw [List.filter_congr hq]
  · intro p hp
    simp only [Text.async_render, List.mem_map] at hp
    obtain ⟨q, _, rfl⟩ := hp
    rfl

/-- C3 witness: the amended viewport characterisation evaluated on the
concrete two-line text. -/
theorem C3_viewport_is_one_short_witness :
    (c3text.async_render.lines.map fun p => p.1.num)
        = ((List.range c3text.lines.length).filter fun i =>
            decide (c3text.scroll_offset ≤ i) &&
              decide (i + 1 < c3text.scroll_offset + c3text.height)).map
            (fun i => i + 1) :=
  (C3_viewport_is_one_short c3text (by decide)).1

/-- C5 counterexample: three horizontally split children of a 9-by-9 area
get `offset = 3`; the claim places child 2 at
`y = 2 * (offset + 1) = 8`, but the code places every child after the
first at `y = offset + 1 = 4`, so children 1 and 2 overlap. -/
theorem C5_counterexample :
    (c5render.childAreas c5area).map Rect.y = [0, 4, 4]
      ∧ (4 : Nat) ≠ 2 * (c5area.height / 3 + 1) :=
  ⟨rfl, by decide⟩

/-- C5 (amended): with `n ≥ 1` children, `render_ref` draws child `i` into
a rectangle of height `⌊area.height / n⌋` under a Horizontal split (width
`⌊area.width / n⌋` under Vertical); child 0 keeps the area origin and
every later child sits exactly one `offset + 1` step from it — the
per-index offset factor is `min i 1`, not the claimed `i`; with zero
children nothing is drawn. -/
theorem C5_child_area_layout (w : WindowRender) (area : Rect) :
    (w.children = [] → w.childAreas area = [])
      ∧ ∀ i, i < w.children.length →
          (w.childAreas area).get? i = some (
            match w.split_dir with
            | .horizontal =>
              { x := area.x
                y := area.y + min i 1 * (area.height / w.children.length + 1)
                width := area.width
                height := area.height / w.children.length }
            | .vertical =>
              { x := area.x + min i 1 * (area.width / w.children.length + 1)
                y := area.y
                width := area.width / w.children.length
                height := area.height }) := by
  constructor
  · intro h
    simp [WindowRender.childAreas, h]
  · intro i hi
    have hn : ¬ w.children.length = 0 := by omega
    cases hsd : w.split_dir with
    | horizontal =>
      simp only [WindowRender.childAreas, hsd, if_neg hn, List.get?_map,
        List.get?_range hi, Option.map_some, Option.some.injEq]
      cases i with
      | zero => simp
      | succ j =>
        have hmin : min (j + 1) 1 = 1 := by omega
        have hif : ¬ (j + 1 = 0) := by omega
        simp [hif, hmin, Nat.add_assoc]
    | vertical =>
      simp only [WindowRender.childAreas, hsd, if_neg hn, List.get?_map,
        List.get?_range hi, Option.map_some, Option.some.injEq]
      cases i with
      | zero => simp
      | succ j =>
        have hmin : min (j + 1) 1 = 1 := by omega
        have hif : ¬ (j + 1 = 0) := by omega
        simp [hif, hmin, Nat.add_assoc]

/-- C5 witness: the amended layout rule evaluated at child 1 of the
three-child horizontal snapshot in the 9-by-9 area. -/
theorem C5_child_area_layout_witness :
    (c5render.childAreas c5area).get? 1
        = some { x := 0, y := 4, width := 9, height := 3 } :=
  (C5_child_area_layout c5render c5area).2 1 (by decide)

/-- C6 counterexample: descending to line 0 of the Text with
`scroll_offset = 5` and `height = 1` adjusts nothing: the Text reachable
from the resulting zipper's breadcrumb still has `scroll_offset = 5`, so
the focused line's index 0 does NOT lie in the viewport `[5, 5 + 1)` and,
contrary to the claim, the offset was not reset to the focused index 0. -/
theorem C6_counterexample :
    ((c6zipper.daughter 0).unwrap.previous.map fun p => p.1.focus.contentText)
        = some (some c6text)
      ∧ c6text.scroll_offset = 5
      ∧ ¬ (c6text.scroll_offset ≤ 0 ∧ 0 < c6text.scroll_offset + c6text.height) :=
  ⟨rfl, rfl, by decide⟩

/-- C6 (amended): `daughter` performs no scroll adjustment at all — it
either returns the zipper unchanged, or descends while storing the parent
zipper (with whatever `Text` and `scroll_offset` it holds) unchanged in
the breadcrumb and taking the focus directly from the existing child
snapshot; no node is rewritten, so the focused line's index need not lie
in the viewport. -/
theorem C6_daughter_adjusts_nothing (z : LayoutZipper) (index : Nat) :
    z.daughter index = .didntMove z
      ∨ ((z.daughter index).unwrap.previous = some (z, PrevDir.parent)
          ∧ (z.daughter index).unwrap.focus ∈ z.children) := by
  by_cases h : z.children.length = 0
  · left
    simp [LayoutZipper.daughter, h]
  · right
    have hidx : (if z.children.length ≤ index then z.children.length - 1
        else index) < z.children.length := by
      split <;> omega
    constructor
    · simp [LayoutZipper.daughter, h, MoveResult.unwrap, LayoutZipper.previous]
    · simp only [LayoutZipper.daughter, h, if_false, MoveResult.unwrap,
        LayoutZipper.focus]
      rw [List.getD_eq_get z.children default hidx]
      exact List.get_mem z.children _ hidx

/-- C10: `Text::get_line` clamps on non-empty texts and panics on empty
ones: with at least one line it returns the line at index
`min(index, len - 1)` — a past-the-end request yields the last line — and
on a zero-line text the eagerly evaluated
`self.lines.get(self.lines.len() - 1).unwrap()` fallback panics
(modelled `none`), so non-emptiness is an unstated precondition. -/
theorem C10_get_line_clamps_or_panics (t : Text) (index : Nat) :
    (t.lines ≠ [] →
        t.get_line index = t.lines.get? (min index (t.lines.length - 1)))
      ∧ (t.lines = [] → t.get_line index = none) := by
  constructor
  · intro h
    have hlen : 0 < t.lines.length := List.length_pos.mpr h
    have hlast : t.lines.length - 1 < t.lines.length := by omega
    unfold Text.get_line
    rw [List.get?_eq_get hlast]
    by_cases hidx : index < t.lines.length
    · have hmin : min index (t.lines.length - 1) = index := by omega
      rw [hmin, List.get?_eq_get hidx]
      simp
    · have hnone : t.lines.get? index = none := by
        rw [List.get?_eq_none]
        omega
      have hmin : min index (t.lines.length - 1) = t.lines.length - 1 := by
        omega
      rw [hnone, hmin, List.get?_eq_get hlast]
      simp
  · intro h
    unfold Text.get_line
    simp [h]

/-- C10 witness: the clamping branch evaluated at a past-the-end index of
the two-line text loaded from "a\nb", and the panic branch evaluated on
the zero-line text loaded from "". -/
theorem C10_get_line_clamps_or_panics_witness :
    (Text.raw ['a', '\n', 'b']).get_line 7
        = (Text.raw ['a', '\n', 'b']).lines.get?
            (min 7 ((Text.raw ['a', '\n', 'b']).lines.length - 1))
      ∧ (Text.raw []).get_line 0 = none :=
  ⟨(C10_get_line_clamps_or_panics (Text.raw ['a', '\n', 'b']) 7).1 (by decide),
    (C10_get_line_clamps_or_panics (Text.raw []) 0).2 rfl⟩

end BespokeEd
